import Mathlib

/-!
Verification of the task-representation/normalization contract of the
prepstech-task-manager server.

The repository contains two coexisting rewrites of the task pipeline: a
legacy flat-field variant (top-level `priority`/`dueDate`/`tags` on the
stored document) and the active extras-nested variant (the three reserved
values live inside the `extras` bag).  The active server is the named
`server/src/routes/tasks.ts` together with the extras-nested
`MongoDBService` (`mapTaskDocToType`, `createTask`, `updateTask`,
`deleteTask`, `getTaskById`, `getTasksByUserId`) and `routes/auth.ts`.
This file shallowly embeds those functions and proves/refutes the frozen
claims about them.

JSON values are modelled by `JVal`; arrays are modelled as string arrays
(the only array shape the validation schemas accept; free-form `extras`
values are passed through opaquely by every modelled code path, so this
restriction does not affect any statement).  JavaScript objects are
modelled as association lists (`JObj`) with first-match lookup; `vUndefined`
models a missing property, so `o.k` in the source becomes `jget o k`.
-/

namespace TaskManager

/-- A JSON/JavaScript value as used by the task pipeline. `vUndefined` is the
JavaScript `undefined` returned when a property is absent. -/
inductive JVal where
  | vUndefined : JVal
  | vNull : JVal
  | vBool (b : Bool) : JVal
  | vNum (n : Int) : JVal
  | vStr (s : String) : JVal
  | vArr (elems : List String) : JVal
deriving Repr, DecidableEq

/-- A JavaScript object: association list of fields.  Objects built by the
modelled code always have distinct keys; lookup is first-match. -/
abbrev JObj := List (String × JVal)

/-- JavaScript truthiness of a value (`undefined`, `null`, `false`, `0`,
`''` are falsy; arrays are always truthy). -/
def jTruthy : JVal → Bool
  | .vUndefined => false
  | .vNull => false
  | .vBool b => b
  | .vNum n => n != 0
  | .vStr s => s != ""
  | .vArr _ => true

/-- Optional property read: `some v` when the key is present (first match). -/
def jgetOpt : JObj → String → Option JVal
  | [], _ => none
  | p :: t, k => if p.1 = k then some p.2 else jgetOpt t k

/-- Property read `o.k`: the first binding of `k`, or `undefined`. -/
def jget (o : JObj) (k : String) : JVal :=
  (jgetOpt o k).getD .vUndefined

/-- JavaScript `a || b` on values. -/
def jor (a b : JVal) : JVal := if jTruthy a then a else b

/-- Remove every binding of key `k`. -/
def jerase : JObj → String → JObj
  | [], _ => []
  | p :: t, k => if p.1 = k then jerase t k else p :: jerase t k

/-- Keep the bindings whose key satisfies `pred` (in order). -/
def jfilterKeys : JObj → (String → Bool) → JObj
  | [], _ => []
  | p :: t, pred => if pred p.1 then p :: jfilterKeys t pred else jfilterKeys t pred

/-- `{...o, k: v}`: overwrite/append a single key. -/
def jinsert (o : JObj) (k : String) (v : JVal) : JObj :=
  jerase o k ++ [(k, v)]

/-- Key presence test. -/
def jhasKey (o : JObj) (k : String) : Bool := (jgetOpt o k).isSome

/-- JavaScript object spread `{...a, ...b}`: keys of `b` override `a`.
Key-for-key this agrees with the JS result; only the enumeration order of
overridden keys differs, which no modelled code path observes. -/
def jmerge (a b : JObj) : JObj :=
  jfilterKeys a (fun k => !jhasKey b k) ++ b

/-- Add key `k` with value `v` only when absent (Joi default insertion). -/
def jensure (o : JObj) (k : String) (v : JVal) : JObj :=
  if (jgetOpt o k).isSome then o else o ++ [(k, v)]

/-- The three reserved task keys of the normalization contract. -/
def reservedKeys : List String := ["priority", "dueDate", "tags"]

-- Basic lookup lemmas for the object operations.

theorem jgetOpt_append (a b : JObj) (k : String) :
    jgetOpt (a ++ b) k = (jgetOpt a k).orElse (fun _ => jgetOpt b k) := by
  induction a with
  | nil => simp [jgetOpt, Option.orElse]
  | cons p t ih =>
    by_cases h : p.1 = k <;> simp [jgetOpt, h, ih, Option.orElse]

theorem jgetOpt_erase (o : JObj) (k k' : String) (h : k' ≠ k) :
    jgetOpt (jerase o k) k' = jgetOpt o k' := by
  induction o with
  | nil => simp [jgetOpt, jerase]
  | cons p t ih =>
    by_cases hk : p.1 = k
    · have hk' : p.1 ≠ k' := by rw [hk]; exact fun hh => h hh.symm
      rw [show jerase (p :: t) k = jerase t k by simp [jerase, hk], ih,
        show jgetOpt (p :: t) k' = jgetOpt t k' by simp [jgetOpt, hk']]
    · rw [show jerase (p :: t) k = p :: jerase t k by simp [jerase, hk]]
      by_cases hk' : p.1 = k' <;> simp [jgetOpt, hk', ih]

theorem jgetOpt_erase_self (o : JObj) (k : String) :
    jgetOpt (jerase o k) k = none := by
  induction o with
  | nil => rfl
  | cons p t ih =>
    by_cases hk : p.1 = k <;> simp [jgetOpt, jerase, hk, ih]

theorem jgetOpt_insert (o : JObj) (k k' : String) (v : JVal) :
    jgetOpt (jinsert o k v) k' = if k' = k then some v else jgetOpt o k' := by
  by_cases h : k' = k
  · subst h
    simp [jinsert, jgetOpt_append, jgetOpt_erase_self, jgetOpt, Option.orElse]
  · have h2 : ¬k = k' := fun hh => h hh.symm
    simp only [jinsert, jgetOpt_append, jgetOpt_erase _ _ _ h, if_neg h]
    simp [jgetOpt, h2, Option.orElse]
    cases jgetOpt o k' <;> simp

theorem jgetOpt_filterKeys (o : JObj) (pred : String → Bool) (k : String)
    (hk : pred k = true) :
    jgetOpt (jfilterKeys o pred) k = jgetOpt o k := by
  induction o with
  | nil => rfl
  | cons p t ih =>
    by_cases hp : p.1 = k
    · subst hp; simp [jgetOpt, jfilterKeys, hk]
    · cases hpr : pred p.1 <;> simp [jgetOpt, jfilterKeys, hp, hpr, ih]

theorem jgetOpt_filterKeys_neg (o : JObj) (pred : String → Bool) (k : String)
    (hk : pred k = false) :
    jgetOpt (jfilterKeys o pred) k = none := by
  induction o with
  | nil => rfl
  | cons p t ih =>
    by_cases hp : p.1 = k
    · subst hp; simp [jfilterKeys, hk, ih]
    · cases hpr : pred p.1 <;> simp [jgetOpt, jfilterKeys, hp, hpr, ih]

theorem jgetOpt_merge (a b : JObj) (k : String) :
    jgetOpt (jmerge a b) k = (jgetOpt b k).orElse (fun _ => jgetOpt a k) := by
  unfold jmerge
  rw [jgetOpt_append]
  cases hb : jgetOpt b k with
  | some v =>
    rw [jgetOpt_filterKeys_neg]
    · simp [Option.orElse]
    · simp [jhasKey, hb]
  | none =>
    rw [jgetOpt_filterKeys]
    · cases jgetOpt a k <;> simp [Option.orElse]
    · simp [jhasKey, hb]

/-! ## Stored documents and outbound records (`mongoService`, extras-nested variant) -/

/-- A stored task document (Mongo `Task` collection, extras-nested schema
of `mongodb.ts`).  The `*Flat` fields model top-level fields that the
legacy flat schema may have left on historical documents; the active
`createTask`/`updateTask` never write them.  `dueDateFlat` sits under the
document key `dueDate` (what the legacy writers wrote), while
`due_dateFlat` models the distinct document key `due_date`, which is the
key `mapTaskDocToType` actually reads as its top-level fallback. -/
structure TaskDoc where
  _id : String
  title : String
  description : String
  status : String
  extras : JObj
  priorityFlat : JVal := .vUndefined
  dueDateFlat : JVal := .vUndefined
  due_dateFlat : JVal := .vUndefined
  tagsFlat : JVal := .vUndefined
  userId : String
  createdAt : Nat
  updatedAt : Nat
deriving Repr, DecidableEq

/-- The outbound task record produced by `mapTaskDocToType` (extras-nested
variant): `priority`, `due_date`, `tags` live inside `extras`; there are
no top-level reserved fields. -/
structure TaskOut where
  id : String
  title : String
  description : String
  status : String
  extras : JObj
  user_id : String
  created_at : Nat
  updated_at : Nat
deriving Repr, DecidableEq

/-- `mapTaskDocToType` (mongoService, extras-nested variant): the outbound
`extras` is `{priority: extras.priority || doc.priority || 'medium',
due_date: extras.dueDate || doc.due_date || null,
tags: extras.tags || doc.tags || [], ...customEntries}` where
`customEntries` are the stored extras entries whose key is not one of
`priority`/`dueDate`/`tags`. -/
def mapTaskDocToType (doc : TaskDoc) : TaskOut :=
  { id := doc._id
    title := doc.title
    description := doc.description
    status := doc.status
    extras := jmerge
      [("priority", jor (jget doc.extras "priority") (jor doc.priorityFlat (.vStr "medium"))),
       ("due_date", jor (jget doc.extras "dueDate") (jor doc.due_dateFlat .vNull)),
       ("tags", jor (jget doc.extras "tags") (jor doc.tagsFlat (.vArr [])))]
      (jfilterKeys doc.extras (fun k => !(reservedKeys.contains k)))
    user_id := doc.userId
    created_at := doc.createdAt
    updated_at := doc.updatedAt }

/-- `mongoose.Types.ObjectId.isValid`: a 12-character string (raw bytes)
or a 24-character hex string. -/
def isValidObjectId (s : String) : Bool :=
  s.length == 12 ||
    (s.length == 24 && s.toList.all (fun c =>
      c.isDigit || ('a' ≤ c && c ≤ 'f') || ('A' ≤ c && c ≤ 'F')))

/-- `createTask` (mongoService, extras-nested variant).  Throws on an
invalid user id; otherwise builds
`taskExtras = {priority: extras.priority || 'medium',
dueDate: extras.dueDate || null, tags: extras.tags || [], ...extras}` —
note the trailing spread re-applies the caller's raw values over the
normalized defaults — saves the document (the schema trims `title` and
`description`) and returns `mapTaskDocToType` of it. -/
def mkTaskExtras (extras : JObj) : JObj :=
  jmerge
    [("priority", jor (jget extras "priority") (.vStr "medium")),
     ("dueDate", jor (jget extras "dueDate") .vNull),
     ("tags", jor (jget extras "tags") (.vArr []))]
    extras

/-- The document `new Task({...})` + `save()` produces for `createTask`'s
arguments (the schema trims `title` and `description`). -/
def savedTaskDoc (title description status : String) (extras : JObj)
    (userId freshId : String) (now : Nat) : TaskDoc :=
  { _id := freshId
    title := title.trim
    description := description.trim
    status := status
    extras := mkTaskExtras extras
    userId := userId
    createdAt := now
    updatedAt := now }

def createTask (title description status : String) (extras : JObj)
    (userId freshId : String) (now : Nat) :
    Except String (TaskDoc × TaskOut) :=
  if !isValidObjectId userId then .error "Invalid user ID"
  else
    let doc := savedTaskDoc title description status extras userId freshId now
    .ok (doc, mapTaskDocToType doc)

/-- `Task.findOne({_id, userId})`: first document matching both the id and
the owner. -/
def findTask : List TaskDoc → String → String → Option TaskDoc
  | [], _, _ => none
  | d :: t, i, uid => if d._id = i && d.userId = uid then some d else findTask t i uid

/-- `getTaskById` (mongoService): guards both ids, then a joint
`(_id, userId)` lookup mapped through `mapTaskDocToType`. -/
def getTaskById (store : List TaskDoc) (i userId : String) : Option TaskOut :=
  if !isValidObjectId i || !isValidObjectId userId then none
  else (findTask store i userId).map mapTaskDocToType

/-- Insert into a list sorted by `createdAt` descending. -/
def insertByCreatedDesc (d : TaskDoc) : List TaskDoc → List TaskDoc
  | [] => [d]
  | e :: t => if d.createdAt ≥ e.createdAt then d :: e :: t
              else e :: insertByCreatedDesc d t

/-- Sort by `createdAt` descending (`.sort({createdAt: -1})`). -/
def sortByCreatedDesc : List TaskDoc → List TaskDoc
  | [] => []
  | d :: t => insertByCreatedDesc d (sortByCreatedDesc t)

/-- `getTasksByUserId` (mongoService): invalid user id short-circuits to
`[]`; otherwise the owner's documents, newest first, mapped outbound. -/
def getTasksByUserId (store : List TaskDoc) (userId : String) : List TaskOut :=
  if !isValidObjectId userId then []
  else (sortByCreatedDesc (store.filter (fun d => d.userId = userId))).map mapTaskDocToType

/-- The `Partial<Task>` update payload accepted by the service-level
`updateTask` (extras-nested variant uses only these four fields). -/
structure TaskUpdates where
  title : Option String := none
  description : Option String := none
  status : Option String := none
  extras : Option JObj := none
deriving Repr

/-- Apply the `$set` document built by `updateTask` to one stored
document (`findOneAndUpdate` runs the schema's trim setters). -/
def applyUpdates (d : TaskDoc) (u : TaskUpdates) (now : Nat) : TaskDoc :=
  { d with
    title := match u.title with | some t => t.trim | none => d.title
    description := match u.description with | some s => s.trim | none => d.description
    status := u.status.getD d.status
    extras := u.extras.getD d.extras
    updatedAt := now }

/-- `findOneAndUpdate({_id, userId}, mongoUpdates, {new: true})`: update
the first matching document, returning the new store and the updated
document. -/
def findOneAndUpdate : List TaskDoc → String → String → TaskUpdates → Nat →
    List TaskDoc × Option TaskDoc
  | [], _, _, _, _ => ([], none)
  | d :: t, i, uid, u, now =>
    if d._id = i && d.userId = uid then
      (applyUpdates d u now :: t, some (applyUpdates d u now))
    else
      let r := findOneAndUpdate t i uid u now
      (d :: r.1, r.2)

/-- `updateTask` (mongoService, extras-nested variant): id guards, then a
joint-owner `findOneAndUpdate`, result mapped outbound. -/
def updateTask (store : List TaskDoc) (i userId : String) (u : TaskUpdates)
    (now : Nat) : List TaskDoc × Option TaskOut :=
  if !isValidObjectId i || !isValidObjectId userId then (store, none)
  else
    let r := findOneAndUpdate store i userId u now
    (r.1, r.2.map mapTaskDocToType)

/-- `Task.deleteOne({_id, userId})`: remove the first matching document;
report whether one was deleted. -/
def deleteOne : List TaskDoc → String → String → List TaskDoc × Bool
  | [], _, _ => ([], false)
  | d :: t, i, uid =>
    if d._id = i && d.userId = uid then (t, true)
    else
      let r := deleteOne t i uid
      (d :: r.1, r.2)

/-- `deleteTask` (mongoService): id guards, then joint-owner delete. -/
def deleteTask (store : List TaskDoc) (i userId : String) : List TaskDoc × Bool :=
  if !isValidObjectId i || !isValidObjectId userId then (store, false)
  else deleteOne store i userId

/-! ## Request validation (`routes/tasks.ts`, Joi schemas, nested variant) -/

/-- The `extras` field of an inbound body: absent, present but not an
object (Joi rejects), or an object. -/
inductive ExtrasField where
  | absent : ExtrasField
  | notObject : ExtrasField
  | obj (o : JObj) : ExtrasField
deriving Repr

def statusValues : List String := ["pending", "in-progress", "done"]
def priorityValues : List String := ["low", "medium", "high"]

/-- An inbound create body, typed by the keys `createTaskSchema` knows
about; `otherKeys` lists any further top-level keys of the JSON body
(Joi rejects them: the schema does not allow unknown top-level keys). -/
structure CreateBody where
  title : JVal := .vUndefined
  description : JVal := .vUndefined
  status : JVal := .vUndefined
  extras : ExtrasField := .absent
  otherKeys : List String := []
deriving Repr

/-- An inbound update body for `updateTaskSchema`. -/
structure UpdateBody where
  title : JVal := .vUndefined
  description : JVal := .vUndefined
  status : JVal := .vUndefined
  extras : ExtrasField := .absent
  otherKeys : List String := []
deriving Repr

/-- `extras.priority`: if present it must be one of the three enum
strings. -/
def checkPriorityField (o : JObj) : Except String Unit :=
  match jgetOpt o "priority" with
  | none => .ok ()
  | some (.vStr s) =>
    if priorityValues.contains s then .ok ()
    else .error "\x22extras.priority\x22 must be one of [low, medium, high]"
  | some _ => .error "\x22extras.priority\x22 must be a string"

/-- `extras.dueDate`: if present it must be a string (the empty string and
`null` are explicitly allowed; no date-format check). -/
def checkDueDateField (o : JObj) : Except String Unit :=
  match jgetOpt o "dueDate" with
  | none => .ok ()
  | some .vNull => .ok ()
  | some (.vStr _) => .ok ()
  | some _ => .error "\x22extras.dueDate\x22 must be a string"

/-- `extras.tags`: if present it must be an array of strings. -/
def checkTagsField (o : JObj) : Except String Unit :=
  match jgetOpt o "tags" with
  | none => .ok ()
  | some (.vArr _) => .ok ()
  | some _ => .error "\x22extras.tags\x22 must be an array"

/-- Joi default insertion for the inner extras schema of
`createTaskSchema`: missing reserved keys get their defaults
(`medium` / `null` / `[]`); custom keys pass through (`unknown(true)`). -/
def applyExtrasDefaults (o : JObj) : JObj :=
  jensure (jensure (jensure o "priority" (.vStr "medium")) "dueDate" .vNull)
    "tags" (.vArr [])

/-- The whole-object default of `createTaskSchema`'s `extras` field. -/
def defaultCreateExtras : JObj :=
  [("priority", .vStr "medium"), ("dueDate", .vNull), ("tags", .vArr [])]

/-- The validated value of a create body. -/
structure ValidCreate where
  title : String
  description : Option String
  status : String
  extras : JObj
deriving Repr

/-- `title: Joi.string().required().max(255)` (an empty string is not
allowed by a plain `Joi.string()`). -/
def validateTitleField (v : JVal) : Except String String :=
  match v with
  | .vUndefined => .error "\x22title\x22 is required"
  | .vStr s =>
    if s = "" then .error "\x22title\x22 is not allowed to be empty"
    else if s.length > 255 then
      .error "\x22title\x22 length must be less than or equal to 255 characters long"
    else .ok s
  | _ => .error "\x22title\x22 must be a string"

/-- `description: Joi.string().allow('').max(1000)` (optional). -/
def validateDescriptionField (v : JVal) : Except String (Option String) :=
  match v with
  | .vUndefined => .ok none
  | .vStr s =>
    if s.length > 1000 then
      .error "\x22description\x22 length must be less than or equal to 1000 characters long"
    else .ok (some s)
  | _ => .error "\x22description\x22 must be a string"

/-- `status: Joi.string().valid(...)` (optional; no default applied
here — the create schema's `.default('pending')` is applied by its
caller). -/
def validateStatusField (v : JVal) : Except String (Option String) :=
  match v with
  | .vUndefined => .ok none
  | .vStr s =>
    if statusValues.contains s then .ok (some s)
    else .error "\x22status\x22 must be one of [pending, in-progress, done]"
  | _ => .error "\x22status\x22 must be a string"

/-- The inner extras object schema shared by both task schemas (reserved
keys type-checked, `unknown(true)` for the rest). -/
def checkExtrasObject (o : JObj) : Except String Unit :=
  match checkPriorityField o with
  | .error m => .error m
  | .ok _ =>
    match checkDueDateField o with
    | .error m => .error m
    | .ok _ =>
      match checkTagsField o with
      | .error m => .error m
      | .ok _ => .ok ()

/-- `extras` in `createTaskSchema`: whole-object default when absent,
must be an object, reserved keys checked and defaulted. -/
def validateExtrasCreate (ef : ExtrasField) : Except String JObj :=
  match ef with
  | .absent => .ok defaultCreateExtras
  | .notObject => .error "\x22extras\x22 must be of type object"
  | .obj o =>
    match checkExtrasObject o with
    | .error m => .error m
    | .ok _ => .ok (applyExtrasDefaults o)

/-- `extras` in `updateTaskSchema`: optional, must be an object, reserved
keys checked, no defaults. -/
def validateExtrasUpdate (ef : ExtrasField) : Except String (Option JObj) :=
  match ef with
  | .absent => .ok none
  | .notObject => .error "\x22extras\x22 must be of type object"
  | .obj o =>
    match checkExtrasObject o with
    | .error m => .error m
    | .ok _ => .ok (some o)

/-- `createTaskSchema.validate` (nested variant): `title` required,
non-empty, ≤255; `description` optional, may be empty, ≤1000; `status`
in its enum, default `pending`; `extras` an object whose reserved keys
are checked and defaulted, custom keys passed through; unknown top-level
keys are rejected. -/
def validateCreate (b : CreateBody) : Except String ValidCreate :=
  if !b.otherKeys.isEmpty then
    .error ((b.otherKeys.headD "") ++ " is not allowed")
  else
    match validateTitleField b.title with
    | .error m => .error m
    | .ok t =>
      match validateDescriptionField b.description with
      | .error m => .error m
      | .ok dsc =>
        match validateStatusField b.status with
        | .error m => .error m
        | .ok st =>
          match validateExtrasCreate b.extras with
          | .error m => .error m
          | .ok ex =>
            .ok { title := t, description := dsc, status := st.getD "pending",
                  extras := ex }

/-- The validated value of an update body (no defaults are applied). -/
structure ValidUpdate where
  title : Option String := none
  description : Option String := none
  status : Option String := none
  extras : Option JObj := none
deriving Repr

/-- `title: Joi.string().max(255)` (optional in the update schema). -/
def validateTitleOptField (v : JVal) : Except String (Option String) :=
  match v with
  | .vUndefined => .ok none
  | .vStr s =>
    if s = "" then .error "\x22title\x22 is not allowed to be empty"
    else if s.length > 255 then
      .error "\x22title\x22 length must be less than or equal to 255 characters long"
    else .ok (some s)
  | _ => .error "\x22title\x22 must be a string"

/-- `updateTaskSchema.validate` (nested variant): each field optional with
the same per-field checks as create but no defaults; unknown top-level
keys rejected; `.min(1)` requires at least one key to be present. -/
def validateUpdate (b : UpdateBody) : Except String ValidUpdate :=
  if !b.otherKeys.isEmpty then
    .error ((b.otherKeys.headD "") ++ " is not allowed")
  else
    match validateTitleOptField b.title with
    | .error m => .error m
    | .ok t =>
      match validateDescriptionField b.description with
      | .error m => .error m
      | .ok dsc =>
        match validateStatusField b.status with
        | .error m => .error m
        | .ok st =>
          match validateExtrasUpdate b.extras with
          | .error m => .error m
          | .ok ex =>
            if t.isNone && dsc.isNone && st.isNone && ex.isNone then
              .error "\x22value\x22 must have at least 1 key"
            else
              .ok { title := t, description := dsc, status := st, extras := ex }

/-! ## Route handlers (`routes/tasks.ts`, nested variant) -/

/-- The HTTP outcomes the task routes can produce.
`handedToErrorMiddleware` models `next(error)` inside a `catch`. -/
inductive Resp where
  | okTask (t : TaskOut) : Resp
  | okTasks (ts : List TaskOut) : Resp
  | okInsight (recommendations : String) : Resp
  | created (t : TaskOut) : Resp
  | noContent : Resp
  | badRequest (msg : String) : Resp
  | unauthorized (msg : String) : Resp
  | notFound (msg : String) : Resp
  | serverError (msg : String) : Resp
  | handedToErrorMiddleware (msg : String) : Resp
deriving Repr, DecidableEq

/-- `POST /tasks`: validate, then `createTask(title, description || '',
status, extras || defaults, userId)`; `201` with the created record.
After validation `extras` always carries the Joi default, so the route's
`extras || {...}` fallback never fires. -/
def routeCreateTask (store : List TaskDoc) (uid : String) (b : CreateBody)
    (freshId : String) (now : Nat) : List TaskDoc × Resp :=
  match validateCreate b with
  | .error m => (store, .badRequest m)
  | .ok v =>
    match createTask v.title (v.description.getD "") v.status v.extras uid freshId now with
    | .error m => (store, .handedToErrorMiddleware m)
    | .ok (doc, t) => (store ++ [doc], .created t)

/-- The `taskUpdates` object built by the `PUT /tasks/:id` handler:
`title`/`status` are included when truthy (`updates.title && {...}`),
`description` when defined (`!== undefined`), and `extras` is the shallow
merge `{...existingTask.extras, ...updates.extras}`. -/
def routeTaskUpdates (u : ValidUpdate) (existingTask : TaskOut) : TaskUpdates :=
  { title := match u.title with
      | some s => if s ≠ "" then some s else none
      | none => none
    description := u.description
    status := match u.status with
      | some s => if s ≠ "" then some s else none
      | none => none
    extras := u.extras.map (fun ue => jmerge existingTask.extras ue) }

/-- `PUT /tasks/:id`: validate (400), look up the owned task (404), build
`taskUpdates` via `routeTaskUpdates`, then the service update. -/
def routeUpdateTask (store : List TaskDoc) (uid tid : String) (b : UpdateBody)
    (now : Nat) : List TaskDoc × Resp :=
  match validateUpdate b with
  | .error m => (store, .badRequest m)
  | .ok u =>
    match getTaskById store tid uid with
    | none => (store, .notFound "Task not found")
    | some existingTask =>
      match updateTask store tid uid (routeTaskUpdates u existingTask) now with
      | (store', some t) => (store', .okTask t)
      | (store', none) =>
        (store', .badRequest "Update failed or no valid fields to update")

/-- `DELETE /tasks/:id`: 204 on delete, 404 otherwise. -/
def routeDeleteTask (store : List TaskDoc) (uid tid : String) :
    List TaskDoc × Resp :=
  match deleteTask store tid uid with
  | (store', true) => (store', .noContent)
  | (store', false) => (store', .notFound "Task not found")

/-- `GET /tasks`: the caller's tasks. -/
def routeListTasks (store : List TaskDoc) (uid : String) : Resp :=
  .okTasks (getTasksByUserId store uid)

/-- `POST /tasks/insights`: body must carry a tasks array (400); a missing
`GOOGLE_GENAI_API_KEY` yields a 500 with the configuration message; the
external generation call either succeeds (200 with its text) or throws,
in which case the handler's `catch` logs and calls `next(error)`.
`genOutcome` stands for the awaited external text-generation call. -/
def routeInsights (apiKey : Option String) (tasks : Option (List TaskOut))
    (genOutcome : Except String String) : Resp :=
  match tasks with
  | none => .badRequest "Tasks array is required"
  | some _ =>
    match apiKey with
    | none => .serverError "Gemini API key not configured"
    | some _ =>
      match genOutcome with
      | .error e => .handedToErrorMiddleware e
      | .ok text => .okInsight text

/-! ## Login (`routes/auth.ts`) -/

/-- A stored user record (`mapUserDocToType` shape). -/
structure UserRec where
  id : String
  email : String
  password : String
  created_at : Nat
  updated_at : Nat
deriving Repr, DecidableEq

/-- `User.findOne({email})`. -/
def getUserByEmail : List UserRec → String → Option UserRec
  | [], _ => none
  | u :: t, e => if u.email = e then some u else getUserByEmail t e

/-- Outcome of the login handler. -/
inductive AuthResult where
  | success (userId : String) (email : String) : AuthResult
  | failure (status : Nat) (msg : String) : AuthResult
deriving Repr, DecidableEq

/-- The body of `POST /auth/login` after `loginSchema` validation
(lines 107–140 of `auth.ts`): unknown email and password mismatch take
the two distinct early-return branches; `bcryptCompare` stands for
`bcrypt.compare`.  The success branch's JWT issuance is summarized by the
returned identity. -/
def loginHandler (users : List UserRec) (bcryptCompare : String → String → Bool)
    (email password : String) : AuthResult :=
  match getUserByEmail users email with
  | none => .failure 401 "Invalid credentials"
  | some user =>
    if bcryptCompare password user.password then .success user.id user.email
    else .failure 401 "Invalid credentials"

/-! ## Observation helpers for stating concrete response facts -/

/-- The raw extras object the caller supplied (empty when absent). -/
def ExtrasField.objOf : ExtrasField → JObj
  | .obj o => o
  | _ => []

/-- The task record carried by a 200/201 response. -/
def Resp.extrasOf : Resp → JObj
  | .okTask t => t.extras
  | .created t => t.extras
  | _ => []

/-- The extras of the first stored document. -/
def firstStoredExtras : List TaskDoc → JObj
  | d :: _ => d.extras
  | [] => []

/-! ## Supporting lemmas -/

theorem jgetOpt_jensure (o : JObj) (k : String) (v : JVal) (k' : String) :
    jgetOpt (jensure o k v) k' =
      (jgetOpt o k').orElse (fun _ => if k' = k then some v else none) := by
  unfold jensure
  by_cases hs : (jgetOpt o k).isSome
  · rw [if_pos hs]
    by_cases hk : k' = k
    · subst hk
      cases h : jgetOpt o k' <;> simp_all [Option.orElse]
    · cases h : jgetOpt o k' <;> simp [hk, Option.orElse]
  · rw [if_neg hs]
    rw [jgetOpt_append]
    by_cases hk : k' = k
    · subst hk
      cases h : jgetOpt o k' <;> simp_all [jgetOpt, Option.orElse]
    · cases h : jgetOpt o k' <;> simp [jgetOpt, hk, Ne.symm hk, Option.orElse]

theorem not_reserved_iff (k : String) :
    ¬k ∈ reservedKeys ↔ (k ≠ "priority" ∧ k ≠ "dueDate" ∧ k ≠ "tags") := by
  simp [reservedKeys]

theorem jgetOpt_applyExtrasDefaults_nonreserved (o : JObj) (k : String)
    (h : ¬k ∈ reservedKeys) :
    jgetOpt (applyExtrasDefaults o) k = jgetOpt o k := by
  obtain ⟨h1, h2, h3⟩ := (not_reserved_iff k).mp h
  unfold applyExtrasDefaults
  rw [jgetOpt_jensure, jgetOpt_jensure, jgetOpt_jensure]
  cases jgetOpt o k <;> simp [h1, h2, h3, Option.orElse]

theorem jgetOpt_applyExtrasDefaults_priority (o : JObj) :
    jgetOpt (applyExtrasDefaults o) "priority" =
      some ((jgetOpt o "priority").getD (.vStr "medium")) := by
  unfold applyExtrasDefaults
  rw [jgetOpt_jensure, jgetOpt_jensure, jgetOpt_jensure]
  cases jgetOpt o "priority" <;> simp [Option.orElse]

theorem jgetOpt_applyExtrasDefaults_dueDate (o : JObj) :
    jgetOpt (applyExtrasDefaults o) "dueDate" =
      some ((jgetOpt o "dueDate").getD .vNull) := by
  unfold applyExtrasDefaults
  rw [jgetOpt_jensure, jgetOpt_jensure, jgetOpt_jensure]
  cases jgetOpt o "dueDate" <;> simp [Option.orElse]

theorem jgetOpt_applyExtrasDefaults_tags (o : JObj) :
    jgetOpt (applyExtrasDefaults o) "tags" =
      some ((jgetOpt o "tags").getD (.vArr [])) := by
  unfold applyExtrasDefaults
  rw [jgetOpt_jensure, jgetOpt_jensure, jgetOpt_jensure]
  cases jgetOpt o "tags" <;> simp [Option.orElse]

theorem jgetOpt_mkTaskExtras_nonreserved (e : JObj) (k : String)
    (h : ¬k ∈ reservedKeys) :
    jgetOpt (mkTaskExtras e) k = jgetOpt e k := by
  obtain ⟨h1, h2, h3⟩ := (not_reserved_iff k).mp h
  unfold mkTaskExtras
  rw [jgetOpt_merge]
  cases he : jgetOpt e k <;>
    simp [jgetOpt, Ne.symm h1, Ne.symm h2, Ne.symm h3, Option.orElse]

theorem jgetOpt_mkTaskExtras_priority (e : JObj) :
    jgetOpt (mkTaskExtras e) "priority" =
      some ((jgetOpt e "priority").getD (jor (jget e "priority") (.vStr "medium"))) := by
  unfold mkTaskExtras
  rw [jgetOpt_merge]
  cases he : jgetOpt e "priority" <;> simp [jgetOpt, Option.orElse]

theorem jgetOpt_mkTaskExtras_dueDate (e : JObj) :
    jgetOpt (mkTaskExtras e) "dueDate" =
      some ((jgetOpt e "dueDate").getD (jor (jget e "dueDate") .vNull)) := by
  unfold mkTaskExtras
  rw [jgetOpt_merge]
  cases he : jgetOpt e "dueDate" <;> simp [jgetOpt, Option.orElse]

theorem jgetOpt_mkTaskExtras_tags (e : JObj) :
    jgetOpt (mkTaskExtras e) "tags" =
      some ((jgetOpt e "tags").getD (jor (jget e "tags") (.vArr []))) := by
  unfold mkTaskExtras
  rw [jgetOpt_merge]
  cases he : jgetOpt e "tags" <;> simp [jgetOpt, Option.orElse]

-- What `mapTaskDocToType` exposes at each key of the outbound extras.

theorem mapOut_priority (doc : TaskDoc) :
    jgetOpt (mapTaskDocToType doc).extras "priority" =
      some (jor (jget doc.extras "priority") (jor doc.priorityFlat (.vStr "medium"))) := by
  unfold mapTaskDocToType
  rw [jgetOpt_merge, jgetOpt_filterKeys_neg _ _ _ (by rfl)]
  simp [jgetOpt, Option.orElse]

theorem mapOut_tags (doc : TaskDoc) :
    jgetOpt (mapTaskDocToType doc).extras "tags" =
      some (jor (jget doc.extras "tags") (jor doc.tagsFlat (.vArr []))) := by
  unfold mapTaskDocToType
  rw [jgetOpt_merge, jgetOpt_filterKeys_neg _ _ _ (by rfl)]
  simp [jgetOpt, Option.orElse]

theorem mapOut_due_date (doc : TaskDoc) :
    jgetOpt (mapTaskDocToType doc).extras "due_date" =
      (jgetOpt doc.extras "due_date").orElse
        (fun _ => some (jor (jget doc.extras "dueDate") (jor doc.due_dateFlat .vNull))) := by
  unfold mapTaskDocToType
  rw [jgetOpt_merge, jgetOpt_filterKeys _ _ _ (by rfl)]
  cases jgetOpt doc.extras "due_date" <;> simp [jgetOpt, Option.orElse]

theorem mapOut_dueDate_none (doc : TaskDoc) :
    jgetOpt (mapTaskDocToType doc).extras "dueDate" = none := by
  unfold mapTaskDocToType
  rw [jgetOpt_merge, jgetOpt_filterKeys_neg _ _ _ (by rfl)]
  simp [jgetOpt, Option.orElse]

theorem mapOut_nonreserved (doc : TaskDoc) (k : String)
    (h : ¬k ∈ reservedKeys) (h' : k ≠ "due_date") :
    jgetOpt (mapTaskDocToType doc).extras k = jgetOpt doc.extras k := by
  obtain ⟨h1, h2, h3⟩ := (not_reserved_iff k).mp h
  unfold mapTaskDocToType
  rw [jgetOpt_merge, jgetOpt_filterKeys _ _ _
    (by simp [reservedKeys, h1, h2, h3])]
  cases jgetOpt doc.extras k <;>
    simp [jgetOpt, Ne.symm h1, Ne.symm h', Ne.symm h3, Option.orElse]

-- Inversion of the Joi field checks.

theorem checkPriorityField_ok (o : JObj) (h : checkPriorityField o = .ok ()) :
    jgetOpt o "priority" = none ∨
      ∃ s, jgetOpt o "priority" = some (.vStr s) ∧ s ∈ priorityValues := by
  unfold checkPriorityField at h
  cases hp : jgetOpt o "priority" with
  | none => exact .inl rfl
  | some v =>
    rw [hp] at h
    cases v with
    | vStr s =>
      simp at h
      exact .inr ⟨s, rfl, h⟩
    | vUndefined => simp at h
    | vNull => simp at h
    | vBool b => simp at h
    | vNum n => simp at h
    | vArr l => simp at h

theorem checkDueDateField_ok (o : JObj) (h : checkDueDateField o = .ok ()) :
    jgetOpt o "dueDate" = none ∨ jgetOpt o "dueDate" = some .vNull ∨
      ∃ s, jgetOpt o "dueDate" = some (.vStr s) := by
  unfold checkDueDateField at h
  cases hp : jgetOpt o "dueDate" with
  | none => exact .inl rfl
  | some v =>
    rw [hp] at h
    cases v with
    | vStr s => exact .inr (.inr ⟨s, rfl⟩)
    | vNull => exact .inr (.inl rfl)
    | vUndefined => simp at h
    | vBool b => simp at h
    | vNum n => simp at h
    | vArr l => simp at h

theorem checkTagsField_ok (o : JObj) (h : checkTagsField o = .ok ()) :
    jgetOpt o "tags" = none ∨ ∃ xs, jgetOpt o "tags" = some (.vArr xs) := by
  unfold checkTagsField at h
  cases hp : jgetOpt o "tags" with
  | none => exact .inl rfl
  | some v =>
    rw [hp] at h
    cases v with
    | vArr xs => exact .inr ⟨xs, rfl⟩
    | vUndefined => simp at h
    | vNull => simp at h
    | vBool b => simp at h
    | vNum n => simp at h
    | vStr s => simp at h

theorem checkExtrasObject_ok (o : JObj) (h : checkExtrasObject o = .ok ()) :
    checkPriorityField o = .ok () ∧ checkDueDateField o = .ok () ∧
      checkTagsField o = .ok () := by
  unfold checkExtrasObject at h
  cases h1 : checkPriorityField o with
  | error m => rw [h1] at h; simp at h
  | ok u =>
    rw [h1] at h
    cases h2 : checkDueDateField o with
    | error m => rw [h2] at h; simp at h
    | ok u2 =>
      rw [h2] at h
      cases h3 : checkTagsField o with
      | error m => rw [h3] at h; simp at h
      | ok u3 => cases u; cases u2; cases u3; exact ⟨rfl, rfl, rfl⟩

theorem validateExtrasCreate_ok (ef : ExtrasField) (e : JObj)
    (h : validateExtrasCreate ef = .ok e) :
    e = applyExtrasDefaults ef.objOf ∧ checkExtrasObject ef.objOf = .ok () := by
  cases ef with
  | absent =>
    simp only [validateExtrasCreate] at h
    injection h with hv
    exact ⟨hv.symm, rfl⟩
  | notObject => simp [validateExtrasCreate] at h
  | obj o =>
    simp only [validateExtrasCreate] at h
    cases hc : checkExtrasObject o with
    | error m => rw [hc] at h; simp at h
    | ok u =>
      cases u
      rw [hc] at h
      simp at h
      exact ⟨h.symm, hc⟩

theorem validateCreate_ok (b : CreateBody) (v : ValidCreate)
    (h : validateCreate b = .ok v) :
    b.otherKeys = [] ∧ validateExtrasCreate b.extras = .ok v.extras := by
  unfold validateCreate at h
  by_cases hk : b.otherKeys.isEmpty
  · rw [show (!b.otherKeys.isEmpty) = false by simp [hk], if_neg (by simp)] at h
    refine ⟨List.isEmpty_iff.mp hk, ?_⟩
    cases h1 : validateTitleField b.title with
    | error m => rw [h1] at h; simp at h
    | ok t =>
      rw [h1] at h
      cases h2 : validateDescriptionField b.description with
      | error m => rw [h2] at h; simp at h
      | ok dsc =>
        rw [h2] at h
        cases h3 : validateStatusField b.status with
        | error m => rw [h3] at h; simp at h
        | ok st =>
          rw [h3] at h
          cases h4 : validateExtrasCreate b.extras with
          | error m => rw [h4] at h; simp at h
          | ok ex =>
            rw [h4] at h
            injection h with hv
            rw [← hv]
  · rw [show (!b.otherKeys.isEmpty) = true by simp [hk], if_pos rfl] at h
    cases h

-- The create pipeline under a successful validation.

theorem routeCreateTask_ok (store : List TaskDoc) (uid : String) (b : CreateBody)
    (fid : String) (now : Nat) (v : ValidCreate)
    (h : validateCreate b = .ok v) (hu : isValidObjectId uid = true) :
    routeCreateTask store uid b fid now =
      (store ++ [savedTaskDoc v.title (v.description.getD "") v.status v.extras uid fid now],
       .created (mapTaskDocToType
         (savedTaskDoc v.title (v.description.getD "") v.status v.extras uid fid now))) := by
  unfold routeCreateTask
  rw [h]
  unfold createTask
  rw [show (!isValidObjectId uid) = false by simp [hu]]
  rfl

-- Store lookup/update/delete lemmas.

theorem findTask_eq_none (store : List TaskDoc) (i uid : String)
    (h : ∀ d ∈ store, ¬(d._id = i ∧ d.userId = uid)) :
    findTask store i uid = none := by
  induction store with
  | nil => rfl
  | cons d t ih =>
    have hd := h d (List.mem_cons_self ..)
    unfold findTask
    rw [if_neg (by simpa using hd)]
    exact ih (fun e he => h e (List.mem_cons_of_mem _ he))

theorem findOneAndUpdate_of_none (store : List TaskDoc) (i uid : String)
    (u : TaskUpdates) (now : Nat) (h : findTask store i uid = none) :
    findOneAndUpdate store i uid u now = (store, none) := by
  induction store with
  | nil => rfl
  | cons d t ih =>
    unfold findTask at h
    unfold findOneAndUpdate
    by_cases hc : (d._id = i ∧ d.userId = uid)
    · rw [if_pos (by simpa using hc)] at h; cases h
    · rw [if_neg (by simpa using hc)] at h ⊢
      rw [ih h]

theorem deleteOne_of_none (store : List TaskDoc) (i uid : String)
    (h : findTask store i uid = none) :
    deleteOne store i uid = (store, false) := by
  induction store with
  | nil => rfl
  | cons d t ih =>
    unfold findTask at h
    unfold deleteOne
    by_cases hc : (d._id = i ∧ d.userId = uid)
    · rw [if_pos (by simpa using hc)] at h; cases h
    · rw [if_neg (by simpa using hc)] at h ⊢
      rw [ih h]

theorem applyUpdates_id (d : TaskDoc) (u : TaskUpdates) (now : Nat) :
    (applyUpdates d u now)._id = d._id := rfl

theorem applyUpdates_userId (d : TaskDoc) (u : TaskUpdates) (now : Nat) :
    (applyUpdates d u now).userId = d.userId := rfl

theorem findOneAndUpdate_snd (store : List TaskDoc) (i uid : String)
    (u : TaskUpdates) (now : Nat) (d : TaskDoc)
    (h : findTask store i uid = some d) :
    (findOneAndUpdate store i uid u now).2 = some (applyUpdates d u now) := by
  induction store with
  | nil => cases h
  | cons e t ih =>
    unfold findTask at h
    unfold findOneAndUpdate
    by_cases hc : (e._id = i ∧ e.userId = uid)
    · rw [if_pos (by simpa using hc)] at h ⊢
      cases h
      rfl
    · rw [if_neg (by simpa using hc)] at h ⊢
      exact ih h

theorem findTask_findOneAndUpdate (store : List TaskDoc) (i uid : String)
    (u : TaskUpdates) (now : Nat) (d : TaskDoc)
    (h : findTask store i uid = some d) :
    findTask (findOneAndUpdate store i uid u now).1 i uid =
      some (applyUpdates d u now) := by
  induction store with
  | nil => cases h
  | cons e t ih =>
    unfold findTask at h
    by_cases hc : (e._id = i ∧ e.userId = uid)
    · rw [if_pos (by simpa using hc)] at h
      cases h
      unfold findOneAndUpdate
      rw [if_pos (by simpa using hc)]
      unfold findTask
      rw [if_pos (by simp [applyUpdates_id, applyUpdates_userId]; simpa using hc)]
    · rw [if_neg (by simpa using hc)] at h
      unfold findOneAndUpdate
      rw [if_neg (by simpa using hc)]
      unfold findTask
      rw [if_neg (by simpa using hc)]
      exact ih h

-- What the create pipeline stores and returns at each extras key, for a
-- validated extras object derived from the caller's raw object `O`.

theorem stored_priority_of_validated (O : JObj) :
    jgetOpt (mkTaskExtras (applyExtrasDefaults O)) "priority" =
      some ((jgetOpt O "priority").getD (.vStr "medium")) := by
  rw [jgetOpt_mkTaskExtras_priority, jgetOpt_applyExtrasDefaults_priority]
  simp

theorem stored_dueDate_of_validated (O : JObj) :
    jgetOpt (mkTaskExtras (applyExtrasDefaults O)) "dueDate" =
      some ((jgetOpt O "dueDate").getD .vNull) := by
  rw [jgetOpt_mkTaskExtras_dueDate, jgetOpt_applyExtrasDefaults_dueDate]
  simp

theorem stored_tags_of_validated (O : JObj) :
    jgetOpt (mkTaskExtras (applyExtrasDefaults O)) "tags" =
      some ((jgetOpt O "tags").getD (.vArr [])) := by
  rw [jgetOpt_mkTaskExtras_tags, jgetOpt_applyExtrasDefaults_tags]
  simp

theorem stored_nonreserved_of_validated (O : JObj) (k : String)
    (h : ¬k ∈ reservedKeys) :
    jgetOpt (mkTaskExtras (applyExtrasDefaults O)) k = jgetOpt O k := by
  rw [jgetOpt_mkTaskExtras_nonreserved _ _ h, jgetOpt_applyExtrasDefaults_nonreserved _ _ h]

theorem out_priority_of_validated (O : JObj) (doc : TaskDoc)
    (hd : doc.extras = mkTaskExtras (applyExtrasDefaults O))
    (hf : doc.priorityFlat = .vUndefined) :
    jgetOpt (mapTaskDocToType doc).extras "priority" =
      some (jor (jget O "priority") (.vStr "medium")) := by
  rw [mapOut_priority, hf, hd]
  have hs := stored_priority_of_validated O
  rw [show jget (mkTaskExtras (applyExtrasDefaults O)) "priority"
        = (jgetOpt O "priority").getD (.vStr "medium") by simp [jget, hs]]
  cases hp : jgetOpt O "priority" <;> simp [jget, hp, jor, jTruthy]

theorem out_due_date_of_validated (O : JObj) (doc : TaskDoc)
    (hd : doc.extras = mkTaskExtras (applyExtrasDefaults O))
    (hf : doc.due_dateFlat = .vUndefined)
    (hnc : jgetOpt O "due_date" = none) :
    jgetOpt (mapTaskDocToType doc).extras "due_date" =
      some (jor (jget O "dueDate") .vNull) := by
  rw [mapOut_due_date, hf, hd]
  rw [show jgetOpt (mkTaskExtras (applyExtrasDefaults O)) "due_date" = none by
    rw [jgetOpt_mkTaskExtras_nonreserved _ _ (by simp [reservedKeys]),
      jgetOpt_applyExtrasDefaults_nonreserved _ _ (by simp [reservedKeys])]
    exact hnc]
  have hs := stored_dueDate_of_validated O
  rw [show jget (mkTaskExtras (applyExtrasDefaults O)) "dueDate"
        = (jgetOpt O "dueDate").getD .vNull by simp [jget, hs]]
  cases hp : jgetOpt O "dueDate" <;> simp [jget, hp, jor, jTruthy, Option.orElse]

theorem out_tags_of_validated (O : JObj) (doc : TaskDoc)
    (hd : doc.extras = mkTaskExtras (applyExtrasDefaults O))
    (hf : doc.tagsFlat = .vUndefined) :
    jgetOpt (mapTaskDocToType doc).extras "tags" =
      some (jor (jget O "tags") (.vArr [])) := by
  rw [mapOut_tags, hf, hd]
  have hs := stored_tags_of_validated O
  rw [show jget (mkTaskExtras (applyExtrasDefaults O)) "tags"
        = (jgetOpt O "tags").getD (.vArr []) by simp [jget, hs]]
  cases hp : jgetOpt O "tags" <;> simp [jget, hp, jor, jTruthy]

theorem out_nonreserved_of_validated (O : JObj) (doc : TaskDoc) (k : String)
    (hd : doc.extras = mkTaskExtras (applyExtrasDefaults O))
    (h : ¬k ∈ reservedKeys) (h' : k ≠ "due_date") :
    jgetOpt (mapTaskDocToType doc).extras k = jgetOpt O k := by
  rw [mapOut_nonreserved _ _ h h', hd, stored_nonreserved_of_validated _ _ h]

/-- A non-reserved key present in the stored extras survives the outbound
mapping with its value (even the corner key `due_date`, which overrides
the mapper's renamed reserved entry). -/
theorem mapOut_present_nonreserved (doc : TaskDoc) (k : String) (w : JVal)
    (hk : ¬k ∈ reservedKeys) (hdk : jgetOpt doc.extras k = some w) :
    jgetOpt (mapTaskDocToType doc).extras k = some w := by
  by_cases h' : k = "due_date"
  · subst h'
    rw [mapOut_due_date, hdk]
    simp [Option.orElse]
  · rw [mapOut_nonreserved _ _ hk h', hdk]

-- The `PUT /tasks/:id` handler's paths.

theorem getTaskById_found (store : List TaskDoc) (tid uid : String) (d : TaskDoc)
    (hti : isValidObjectId tid = true) (hui : isValidObjectId uid = true)
    (hf : findTask store tid uid = some d) :
    getTaskById store tid uid = some (mapTaskDocToType d) := by
  simp [getTaskById, hti, hui, hf]

theorem updateTask_found (store : List TaskDoc) (tid uid : String)
    (u : TaskUpdates) (now : Nat) (d : TaskDoc)
    (hti : isValidObjectId tid = true) (hui : isValidObjectId uid = true)
    (hf : findTask store tid uid = some d) :
    updateTask store tid uid u now =
      ((findOneAndUpdate store tid uid u now).1,
       some (mapTaskDocToType (applyUpdates d u now))) := by
  have h2 := findOneAndUpdate_snd store tid uid u now d hf
  simp [updateTask, hti, hui, h2]

theorem routeUpdateTask_found (store : List TaskDoc) (uid tid : String)
    (b : UpdateBody) (now : Nat) (u : ValidUpdate) (d : TaskDoc)
    (hv : validateUpdate b = .ok u)
    (hti : isValidObjectId tid = true) (hui : isValidObjectId uid = true)
    (hf : findTask store tid uid = some d) :
    routeUpdateTask store uid tid b now =
      ((findOneAndUpdate store tid uid
          (routeTaskUpdates u (mapTaskDocToType d)) now).1,
       .okTask (mapTaskDocToType
         (applyUpdates d (routeTaskUpdates u (mapTaskDocToType d)) now))) := by
  have hg := getTaskById_found store tid uid d hti hui hf
  have hup := updateTask_found store tid uid
    (routeTaskUpdates u (mapTaskDocToType d)) now d hti hui hf
  simp [routeUpdateTask, hv, hg, hup]

/-! ## Claims -/

/-- C1 (counterexample).  The claim says the Task returned by create has
`priority`/`dueDate`/`tags` as top-level first-class fields and an
`extras` containing none of the three reserved keys.  On the spec's own
example payload (`title: "Ship report"`, `status: "pending"`,
`extras: {priority: "high", tags: ["work"]}`) the created response nests
all three reserved values inside `extras` (the outbound record has no
top-level reserved fields at all — `TaskOut` carries them only inside
`extras`), so `extras` does contain reserved keys. -/
theorem claim1_counterexample :
    jgetOpt (Resp.extrasOf
        (routeCreateTask [] "uuuuuuuuuuuu"
          { title := .vStr "Ship report"
            status := .vStr "pending"
            extras := .obj [("priority", .vStr "high"), ("tags", .vArr ["work"])] }
          "tttttttttttt" 5).2) "priority" = some (.vStr "high") ∧
    jgetOpt (Resp.extrasOf
        (routeCreateTask [] "uuuuuuuuuuuu"
          { title := .vStr "Ship report"
            status := .vStr "pending"
            extras := .obj [("priority", .vStr "high"), ("tags", .vArr ["work"])] }
          "tttttttttttt" 5).2) "tags" = some (.vArr ["work"]) ∧
    jgetOpt (Resp.extrasOf
        (routeCreateTask [] "uuuuuuuuuuuu"
          { title := .vStr "Ship report"
            status := .vStr "pending"
            extras := .obj [("priority", .vStr "high"), ("tags", .vArr ["work"])] }
          "tttttttttttt" 5).2) "due_date" = some .vNull :=
  ⟨rfl, rfl, rfl⟩

/-- C1 (amended).  For every valid create payload the returned Task
carries the three reserved values inside its `extras` object — keys
`priority`, `due_date` (renamed from the caller's `dueDate`), `tags` —
always present with the defaults `medium`/`null`/`[]` applied when the
caller omitted them, alongside exactly the caller's non-reserved custom
keys; no top-level reserved fields exist on the response, and the
caller's raw `dueDate` key never appears in the response extras.  (The
side premise rules out a caller custom key literally named `due_date`,
which would shadow the renamed reserved key.) -/
theorem claim1_amended (store : List TaskDoc) (uid fid : String) (now : Nat)
    (b : CreateBody) (v : ValidCreate)
    (hv : validateCreate b = .ok v) (hu : isValidObjectId uid = true)
    (hnc : jgetOpt b.extras.objOf "due_date" = none) :
    ∃ doc t, routeCreateTask store uid b fid now = (store ++ [doc], .created t) ∧
      jgetOpt t.extras "priority" =
        some (jor (jget b.extras.objOf "priority") (.vStr "medium")) ∧
      jgetOpt t.extras "due_date" =
        some (jor (jget b.extras.objOf "dueDate") .vNull) ∧
      jgetOpt t.extras "tags" =
        some (jor (jget b.extras.objOf "tags") (.vArr [])) ∧
      jgetOpt t.extras "dueDate" = none ∧
      (∀ k, ¬k ∈ reservedKeys → k ≠ "due_date" →
        jgetOpt t.extras k = jgetOpt b.extras.objOf k) := by
  obtain ⟨-, hex⟩ := validateCreate_ok b v hv
  obtain ⟨hedef, -⟩ := validateExtrasCreate_ok _ _ hex
  refine ⟨_, _, routeCreateTask_ok store uid b fid now v hv hu,
    out_priority_of_validated _ _ (by simp [savedTaskDoc, hedef]) rfl,
    out_due_date_of_validated _ _ (by simp [savedTaskDoc, hedef]) rfl hnc,
    out_tags_of_validated _ _ (by simp [savedTaskDoc, hedef]) rfl,
    mapOut_dueDate_none _,
    fun k hk hk' => out_nonreserved_of_validated _ _ k
      (by simp [savedTaskDoc, hedef]) hk hk'⟩

/-- C1 (witness): the amended statement evaluated on the spec's example
payload. -/
theorem claim1_amended_witness :
    validateCreate
        { title := .vStr "Ship report"
          status := .vStr "pending"
          extras := .obj [("priority", .vStr "high"), ("tags", .vArr ["work"])] } =
      .ok { title := "Ship report"
            description := none
            status := "pending"
            extras := [("priority", .vStr "high"), ("tags", .vArr ["work"]),
                       ("dueDate", .vNull)] } ∧
    isValidObjectId "uuuuuuuuuuuu" = true ∧
    (∃ doc t,
      routeCreateTask [] "uuuuuuuuuuuu"
          { title := .vStr "Ship report"
            status := .vStr "pending"
            extras := .obj [("priority", .vStr "high"), ("tags", .vArr ["work"])] }
          "tttttttttttt" 5 = ([] ++ [doc], .created t) ∧
      jgetOpt t.extras "priority" = some (.vStr "high") ∧
      jgetOpt t.extras "due_date" = some .vNull ∧
      jgetOpt t.extras "tags" = some (.vArr ["work"]) ∧
      jgetOpt t.extras "dueDate" = none) := by
  refine ⟨rfl, rfl, ?_⟩
  obtain ⟨doc, t, h1, h2, h3, h4, h5, -⟩ :=
    claim1_amended [] "uuuuuuuuuuuu" "tttttttttttt" 5
      { title := .vStr "Ship report"
        status := .vStr "pending"
        extras := .obj [("priority", .vStr "high"), ("tags", .vArr ["work"])] }
      { title := "Ship report"
        description := none
        status := "pending"
        extras := [("priority", .vStr "high"), ("tags", .vArr ["work"]),
                   ("dueDate", .vNull)] }
      rfl rfl rfl
  exact ⟨doc, t, h1, h2.trans rfl, h3.trans rfl, h4.trans rfl, h5⟩

/-- C2 (counterexample).  The claim says the top-level stored field wins
over the same key inside stored `extras`.  On a document that carries
both a top-level `priority` of `"high"` and `extras.priority = "low"`,
`mapTaskDocToType` returns `"low"`: the extras-nested value wins. -/
theorem claim2_counterexample :
    jgetOpt (mapTaskDocToType
      { _id := "tttttttttttt"
        title := "t"
        description := ""
        status := "pending"
        extras := [("priority", .vStr "low")]
        priorityFlat := .vStr "high"
        userId := "uuuuuuuuuuuu"
        createdAt := 0
        updatedAt := 0 }).extras "priority" = some (.vStr "low") ∧
    (some (JVal.vStr "low") ≠ some (JVal.vStr "high")) :=
  ⟨rfl, by decide⟩

/-- C2 (amended).  Precedence is the opposite of the claim: for each
reserved key, the truthy value found inside stored `extras` wins, and the
top-level stored field serves only as a fallback.  (For the due date the
nested key read is `extras.dueDate`, surfaced as `due_date`; the third
conjunct's extra premise excludes a stored custom key literally named
`due_date`, which would shadow it.) -/
theorem claim2_amended (doc : TaskDoc) :
    (jTruthy (jget doc.extras "priority") = true →
      jgetOpt (mapTaskDocToType doc).extras "priority" =
        some (jget doc.extras "priority")) ∧
    (jTruthy (jget doc.extras "tags") = true →
      jgetOpt (mapTaskDocToType doc).extras "tags" =
        some (jget doc.extras "tags")) ∧
    (jTruthy (jget doc.extras "dueDate") = true →
      jgetOpt doc.extras "due_date" = none →
      jgetOpt (mapTaskDocToType doc).extras "due_date" =
        some (jget doc.extras "dueDate")) := by
  refine ⟨fun h => ?_, fun h => ?_, fun h hnc => ?_⟩
  · rw [mapOut_priority]
    simp [jor, h]
  · rw [mapOut_tags]
    simp [jor, h]
  · rw [mapOut_due_date, hnc]
    simp [jor, h, Option.orElse]

/-- C2 (witness): the amended precedence evaluated on the document of the
counterexample. -/
theorem claim2_amended_witness :
    jTruthy (jget
      (TaskDoc.extras
        { _id := "tttttttttttt"
          title := "t"
          description := ""
          status := "pending"
          extras := [("priority", .vStr "low")]
          priorityFlat := .vStr "high"
          userId := "uuuuuuuuuuuu"
          createdAt := 0
          updatedAt := 0 }) "priority") = true ∧
    jgetOpt (mapTaskDocToType
      { _id := "tttttttttttt"
        title := "t"
        description := ""
        status := "pending"
        extras := [("priority", .vStr "low")]
        priorityFlat := .vStr "high"
        userId := "uuuuuuuuuuuu"
        createdAt := 0
        updatedAt := 0 }).extras "priority" = some (.vStr "low") := by
  refine ⟨rfl, ?_⟩
  have h := (claim2_amended
    { _id := "tttttttttttt"
      title := "t"
      description := ""
      status := "pending"
      extras := [("priority", .vStr "low")]
      priorityFlat := .vStr "high"
      userId := "uuuuuuuuuuuu"
      createdAt := 0
      updatedAt := 0 }).1 rfl
  exact h.trans rfl

/-- C3 (counterexample).  The claim says that when a reserved field is
supplied top-level, the top-level value is the one normalized and
persisted.  The create schema does not accept reserved fields top-level
at all: `{title: "t", priority: "high"}` (the top-level `priority` being
an unknown key to `createTaskSchema`, modelled via `otherKeys`) is
rejected with a 400 validation error and nothing is persisted. -/
theorem claim3_counterexample :
    routeCreateTask [] "uuuuuuuuuuuu"
        { title := .vStr "t", otherKeys := ["priority"] }
        "tttttttttttt" 5 =
      ([], .badRequest "priority is not allowed") := rfl

/-- C3 (amended).  Reserved fields are accepted only nested inside
`extras`: a payload with any unknown top-level key (such as a top-level
`priority`/`dueDate`/`tags`) fails validation; when the payload is valid,
the value persisted for each reserved key is the extras-nested one, and
an absent key gets the create defaults `priority = medium`,
`dueDate = null`, `tags = []`. -/
theorem claim3_amended (b : CreateBody) :
    (b.otherKeys ≠ [] → ∃ m, validateCreate b = .error m) ∧
    (∀ v store uid fid now, validateCreate b = .ok v →
      isValidObjectId uid = true →
      ∃ doc t, routeCreateTask store uid b fid now = (store ++ [doc], .created t) ∧
        jgetOpt doc.extras "priority" =
          some ((jgetOpt b.extras.objOf "priority").getD (.vStr "medium")) ∧
        jgetOpt doc.extras "dueDate" =
          some ((jgetOpt b.extras.objOf "dueDate").getD .vNull) ∧
        jgetOpt doc.extras "tags" =
          some ((jgetOpt b.extras.objOf "tags").getD (.vArr []))) := by
  constructor
  · intro h
    refine ⟨(b.otherKeys.headD "") ++ " is not allowed", ?_⟩
    unfold validateCreate
    rw [if_pos]
    simp [h]
  · intro v store uid fid now hv hu
    obtain ⟨-, hex⟩ := validateCreate_ok b v hv
    obtain ⟨hedef, -⟩ := validateExtrasCreate_ok _ _ hex
    refine ⟨_, _, routeCreateTask_ok store uid b fid now v hv hu, ?_, ?_, ?_⟩
    · rw [show (savedTaskDoc v.title (v.description.getD "") v.status v.extras
          uid fid now).extras = mkTaskExtras (applyExtrasDefaults b.extras.objOf)
          by simp [savedTaskDoc, hedef]]
      exact stored_priority_of_validated _
    · rw [show (savedTaskDoc v.title (v.description.getD "") v.status v.extras
          uid fid now).extras = mkTaskExtras (applyExtrasDefaults b.extras.objOf)
          by simp [savedTaskDoc, hedef]]
      exact stored_dueDate_of_validated _
    · rw [show (savedTaskDoc v.title (v.description.getD "") v.status v.extras
          uid fid now).extras = mkTaskExtras (applyExtrasDefaults b.extras.objOf)
          by simp [savedTaskDoc, hedef]]
      exact stored_tags_of_validated _

/-- C3 (witness): a top-level `priority` payload is rejected, and a valid
nested payload persists the nested value. -/
theorem claim3_amended_witness :
    (["priority"] ≠ ([] : List String) ∧
      ∃ m, validateCreate { title := .vStr "t", otherKeys := ["priority"] } =
        .error m) ∧
    (validateCreate { title := .vStr "t", extras := .obj [("priority", .vStr "low")] } =
      .ok { title := "t"
            description := none
            status := "pending"
            extras := [("priority", .vStr "low"), ("dueDate", .vNull),
                       ("tags", .vArr [])] } ∧
      isValidObjectId "uuuuuuuuuuuu" = true ∧
      ∃ doc t,
        routeCreateTask [] "uuuuuuuuuuuu"
            { title := .vStr "t", extras := .obj [("priority", .vStr "low")] }
            "tttttttttttt" 5 = ([] ++ [doc], .created t) ∧
        jgetOpt doc.extras "priority" = some (.vStr "low") ∧
        jgetOpt doc.extras "dueDate" = some .vNull ∧
        jgetOpt doc.extras "tags" = some (.vArr []) ) := by
  constructor
  · exact ⟨by decide,
      (claim3_amended { title := .vStr "t", otherKeys := ["priority"] }).1
        (by decide)⟩
  · refine ⟨rfl, rfl, ?_⟩
    obtain ⟨doc, t, h1, h2, h3, h4⟩ :=
      (claim3_amended
        { title := .vStr "t", extras := .obj [("priority", .vStr "low")] }).2
        { title := "t"
          description := none
          status := "pending"
          extras := [("priority", .vStr "low"), ("dueDate", .vNull),
                     ("tags", .vArr [])] }
        [] "uuuuuuuuuuuu" "tttttttttttt" 5 rfl rfl
    exact ⟨doc, t, h1, h2.trans rfl, h3.trans rfl, h4.trans rfl⟩

/-- C7 (counterexample).  The claim says an empty-string `dueDate` is
never stored.  Creating `{title: "t", extras: {dueDate: ""}}` persists
`extras.dueDate = ""` verbatim in the stored document (the `...extras`
spread in `createTask` re-applies the raw value over the normalized
`null`), even though the response's `due_date` is `null`. -/
theorem claim7_counterexample :
    jgetOpt (firstStoredExtras
        (routeCreateTask [] "uuuuuuuuuuuu"
          { title := .vStr "t", extras := .obj [("dueDate", .vStr "")] }
          "tttttttttttt" 5).1) "dueDate" = some (.vStr "") ∧
    jgetOpt (Resp.extrasOf
        (routeCreateTask [] "uuuuuuuuuuuu"
          { title := .vStr "t", extras := .obj [("dueDate", .vStr "")] }
          "tttttttttttt" 5).2) "due_date" = some .vNull ∧
    (some (JVal.vStr "") ≠ some JVal.vNull) :=
  ⟨rfl, rfl, by decide⟩

/-- C7 (amended).  A create payload whose `extras.dueDate` is the empty
string behaves like `null` on the outbound record — the returned
`due_date` is `null` in both cases — but the raw value (including the
empty string) is persisted verbatim inside the stored document's
`extras.dueDate`; reads normalize it back to `null`. -/
theorem claim7_amended (store : List TaskDoc) (uid fid : String) (now : Nat)
    (b : CreateBody) (O : JObj) (w : JVal) (v : ValidCreate)
    (hb : b.extras = .obj O) (hw : jgetOpt O "dueDate" = some w)
    (hcase : w = .vStr "" ∨ w = .vNull)
    (hv : validateCreate b = .ok v) (hu : isValidObjectId uid = true)
    (hnc : jgetOpt O "due_date" = none) :
    ∃ doc t, routeCreateTask store uid b fid now = (store ++ [doc], .created t) ∧
      jgetOpt doc.extras "dueDate" = some w ∧
      jgetOpt t.extras "due_date" = some .vNull := by
  obtain ⟨-, hex⟩ := validateCreate_ok b v hv
  obtain ⟨hedef, -⟩ := validateExtrasCreate_ok _ _ hex
  have hO : b.extras.objOf = O := by rw [hb]; rfl
  refine ⟨_, _, routeCreateTask_ok store uid b fid now v hv hu, ?_, ?_⟩
  · rw [show (savedTaskDoc v.title (v.description.getD "") v.status v.extras
        uid fid now).extras = mkTaskExtras (applyExtrasDefaults O)
        by simp [savedTaskDoc, hedef, hO]]
    rw [stored_dueDate_of_validated, hw]
    rfl
  · rw [out_due_date_of_validated O _
      (by simp [savedTaskDoc, hedef, hO]) rfl hnc]
    rcases hcase with hc | hc <;> simp [jget, hw, hc, jor, jTruthy]

/-- C7 (witness): the amended statement on the concrete empty-string
payload. -/
theorem claim7_amended_witness :
    jgetOpt [("dueDate", JVal.vStr "")] "dueDate" = some (.vStr "") ∧
    validateCreate { title := .vStr "t", extras := .obj [("dueDate", .vStr "")] } =
      .ok { title := "t"
            description := none
            status := "pending"
            extras := [("dueDate", .vStr ""), ("priority", .vStr "medium"),
                       ("tags", .vArr [])] } ∧
    (∃ doc t,
      routeCreateTask [] "uuuuuuuuuuuu"
          { title := .vStr "t", extras := .obj [("dueDate", .vStr "")] }
          "tttttttttttt" 5 = ([] ++ [doc], .created t) ∧
      jgetOpt doc.extras "dueDate" = some (.vStr "") ∧
      jgetOpt t.extras "due_date" = some .vNull) := by
  refine ⟨rfl, rfl, ?_⟩
  exact claim7_amended [] "uuuuuuuuuuuu" "tttttttttttt" 5
    { title := .vStr "t", extras := .obj [("dueDate", .vStr "")] }
    [("dueDate", .vStr "")] (.vStr "")
    { title := "t"
      description := none
      status := "pending"
      extras := [("dueDate", .vStr ""), ("priority", .vStr "medium"),
                 ("tags", .vArr [])] }
    rfl rfl (.inl rfl) rfl rfl rfl

/-- C4.  Updating a task's `extras` is a shallow merge into the stored
extras, never a replacement: every previously stored non-reserved extras
key not mentioned in the update payload keeps its value, both in the
returned record and in the stored document. -/
theorem claim4 (store : List TaskDoc) (uid tid : String) (b : UpdateBody)
    (now : Nat) (u : ValidUpdate) (U : JObj) (d : TaskDoc) (k : String) (w : JVal)
    (hv : validateUpdate b = .ok u) (hU : u.extras = some U)
    (hti : isValidObjectId tid = true) (hui : isValidObjectId uid = true)
    (hf : findTask store tid uid = some d)
    (hk : ¬k ∈ reservedKeys) (hUk : jgetOpt U k = none)
    (hdk : jgetOpt d.extras k = some w) :
    ∃ store2 t, routeUpdateTask store uid tid b now = (store2, .okTask t) ∧
      jgetOpt t.extras k = some w ∧
      ∀ d2, findTask store2 tid uid = some d2 → jgetOpt d2.extras k = some w := by
  have hroute := routeUpdateTask_found store uid tid b now u d hv hti hui hf
  have hTUe : (routeTaskUpdates u (mapTaskDocToType d)).extras =
      some (jmerge (mapTaskDocToType d).extras U) := by
    simp [routeTaskUpdates, hU]
  have hd2e : (applyUpdates d (routeTaskUpdates u (mapTaskDocToType d)) now).extras =
      jmerge (mapTaskDocToType d).extras U := by
    simp [applyUpdates, hTUe]
  have hMk : jgetOpt (jmerge (mapTaskDocToType d).extras U) k = some w := by
    rw [jgetOpt_merge, hUk]
    simp [Option.orElse]
    exact mapOut_present_nonreserved d k w hk hdk
  refine ⟨_, _, hroute, ?_, ?_⟩
  · exact mapOut_present_nonreserved _ k w hk (by rw [hd2e]; exact hMk)
  · intro d2 hfd2
    rw [findTask_findOneAndUpdate store tid uid
      (routeTaskUpdates u (mapTaskDocToType d)) now d hf] at hfd2
    injection hfd2 with h
    rw [← h, hd2e]
    exact hMk

/-- C4 (witness): the spec's own merge example — updating only
`{extras: {category: "x"}}` on a task whose extras hold `assignee: "y"`
keeps `assignee: "y"`. -/
theorem claim4_witness :
    validateUpdate { extras := .obj [("category", .vStr "x")] } =
      .ok { extras := some [("category", .vStr "x")] } ∧
    findTask
      [{ _id := "tttttttttttt"
         title := "t"
         description := ""
         status := "pending"
         extras := [("priority", .vStr "high"), ("dueDate", .vNull),
                    ("tags", .vArr ["work"]), ("assignee", .vStr "y")]
         userId := "uuuuuuuuuuuu"
         createdAt := 0
         updatedAt := 0 }] "tttttttttttt" "uuuuuuuuuuuu" =
      some { _id := "tttttttttttt"
             title := "t"
             description := ""
             status := "pending"
             extras := [("priority", .vStr "high"), ("dueDate", .vNull),
                        ("tags", .vArr ["work"]), ("assignee", .vStr "y")]
             userId := "uuuuuuuuuuuu"
             createdAt := 0
             updatedAt := 0 } ∧
    (∃ store2 t,
      routeUpdateTask
        [{ _id := "tttttttttttt"
           title := "t"
           description := ""
           status := "pending"
           extras := [("priority", .vStr "high"), ("dueDate", .vNull),
                      ("tags", .vArr ["work"]), ("assignee", .vStr "y")]
           userId := "uuuuuuuuuuuu"
           createdAt := 0
           updatedAt := 0 }] "uuuuuuuuuuuu" "tttttttttttt"
        { extras := .obj [("category", .vStr "x")] } 9 = (store2, .okTask t) ∧
      jgetOpt t.extras "assignee" = some (.vStr "y") ∧
      ∀ d2, findTask store2 "tttttttttttt" "uuuuuuuuuuuu" = some d2 →
        jgetOpt d2.extras "assignee" = some (.vStr "y")) := by
  refine ⟨rfl, rfl, ?_⟩
  exact claim4
    [{ _id := "tttttttttttt"
       title := "t"
       description := ""
       status := "pending"
       extras := [("priority", .vStr "high"), ("dueDate", .vNull),
                  ("tags", .vArr ["work"]), ("assignee", .vStr "y")]
       userId := "uuuuuuuuuuuu"
       createdAt := 0
       updatedAt := 0 }] "uuuuuuuuuuuu" "tttttttttttt"
    { extras := .obj [("category", .vStr "x")] } 9
    { extras := some [("category", .vStr "x")] }
    [("category", .vStr "x")]
    { _id := "tttttttttttt"
      title := "t"
      description := ""
      status := "pending"
      extras := [("priority", .vStr "high"), ("dueDate", .vNull),
                 ("tags", .vArr ["work"]), ("assignee", .vStr "y")]
      userId := "uuuuuuuuuuuu"
      createdAt := 0
      updatedAt := 0 }
    "assignee" (.vStr "y") rfl rfl rfl rfl rfl (by decide) rfl rfl

/-- C5.  An update payload with zero recognized fields (none of `title`,
`description`, `status`, `extras` present) is rejected with a 400
validation error — either the unknown-key rejection or the `.min(1)`
rule — before any store access, and the store is left unchanged. -/
theorem claim5 (store : List TaskDoc) (uid tid : String) (b : UpdateBody)
    (now : Nat)
    (h1 : b.title = .vUndefined) (h2 : b.description = .vUndefined)
    (h3 : b.status = .vUndefined) (h4 : b.extras = .absent) :
    ∃ m, routeUpdateTask store uid tid b now = (store, .badRequest m) := by
  rcases hk : b.otherKeys with _ | ⟨k0, ks⟩
  · refine ⟨"\x22value\x22 must have at least 1 key", ?_⟩
    have hv : validateUpdate b = .error "\x22value\x22 must have at least 1 key" := by
      simp [validateUpdate, hk, h1, h2, h3, h4, validateTitleOptField,
        validateDescriptionField, validateStatusField, validateExtrasUpdate]
    simp [routeUpdateTask, hv]
  · refine ⟨(b.otherKeys.headD "") ++ " is not allowed", ?_⟩
    have hv : validateUpdate b =
        .error ((b.otherKeys.headD "") ++ " is not allowed") := by
      unfold validateUpdate
      rw [if_pos]
      simp [hk]
    simp [routeUpdateTask, hv]

/-- C5 (witness): the empty update payload is rejected with the store
untouched. -/
theorem claim5_witness :
    UpdateBody.title {} = .vUndefined ∧
    (∃ m, routeUpdateTask [] "uuuuuuuuuuuu" "tttttttttttt" {} 9 =
      ([], .badRequest m)) :=
  ⟨rfl, claim5 [] "uuuuuuuuuuuu" "tttttttttttt" {} 9 rfl rfl rfl rfl⟩

/-- C6.  Cross-owner isolation: when every stored task with the requested
id belongs to a different owner, the update route answers 404 (for any
payload that passes validation), the delete route answers 404, the lookup
yields no task data, and the store is unchanged in both cases. -/
theorem claim6 (store : List TaskDoc) (uid tid : String) (b : UpdateBody)
    (now : Nat) (u : ValidUpdate)
    (hown : ∀ d ∈ store, d._id = tid → d.userId ≠ uid)
    (hv : validateUpdate b = .ok u) :
    routeUpdateTask store uid tid b now = (store, .notFound "Task not found") ∧
    routeDeleteTask store uid tid = (store, .notFound "Task not found") ∧
    getTaskById store tid uid = none := by
  have hfn : findTask store tid uid = none :=
    findTask_eq_none store tid uid (fun d hd hc => hown d hd hc.1 hc.2)
  have hg : getTaskById store tid uid = none := by
    unfold getTaskById
    by_cases hgu : (!isValidObjectId tid || !isValidObjectId uid) = true
    · rw [if_pos hgu]
    · rw [if_neg hgu, hfn]
      rfl
  refine ⟨?_, ?_, hg⟩
  · simp [routeUpdateTask, hv, hg]
  · have hdel : deleteTask store tid uid = (store, false) := by
      unfold deleteTask
      by_cases hgu : (!isValidObjectId tid || !isValidObjectId uid) = true
      · rw [if_pos hgu]
      · rw [if_neg hgu]
        exact deleteOne_of_none store tid uid hfn
    simp [routeDeleteTask, hdel]

/-- C6 (witness): a task owned by one user is 404 to another user for
both update and delete, with the store unchanged. -/
theorem claim6_witness :
    (∀ d ∈ [{ _id := "tttttttttttt"
              title := "t"
              description := ""
              status := "pending"
              extras := [("priority", JVal.vStr "high")]
              userId := "uuuuuuuuuuuu"
              createdAt := 0
              updatedAt := 0 : TaskDoc }], d._id = "tttttttttttt" →
        d.userId ≠ "vvvvvvvvvvvv") ∧
    routeUpdateTask
        [{ _id := "tttttttttttt"
           title := "t"
           description := ""
           status := "pending"
           extras := [("priority", JVal.vStr "high")]
           userId := "uuuuuuuuuuuu"
           createdAt := 0
           updatedAt := 0 }] "vvvvvvvvvvvv" "tttttttttttt"
        { title := .vStr "z" } 9 =
      ([{ _id := "tttttttttttt"
          title := "t"
          description := ""
          status := "pending"
          extras := [("priority", JVal.vStr "high")]
          userId := "uuuuuuuuuuuu"
          createdAt := 0
          updatedAt := 0 }], .notFound "Task not found") ∧
    routeDeleteTask
        [{ _id := "tttttttttttt"
           title := "t"
           description := ""
           status := "pending"
           extras := [("priority", JVal.vStr "high")]
           userId := "uuuuuuuuuuuu"
           createdAt := 0
           updatedAt := 0 }] "vvvvvvvvvvvv" "tttttttttttt" =
      ([{ _id := "tttttttttttt"
          title := "t"
          description := ""
          status := "pending"
          extras := [("priority", JVal.vStr "high")]
          userId := "uuuuuuuuuuuu"
          createdAt := 0
          updatedAt := 0 }], .notFound "Task not found") := by
  have h := claim6
    [{ _id := "tttttttttttt"
       title := "t"
       description := ""
       status := "pending"
       extras := [("priority", JVal.vStr "high")]
       userId := "uuuuuuuuuuuu"
       createdAt := 0
       updatedAt := 0 }] "vvvvvvvvvvvv" "tttttttttttt"
    { title := .vStr "z" } 9 { title := some "z" }
    (by decide) rfl
  exact ⟨by decide, h.1, h.2.1⟩

/-- C8 (counterexample).  The claim says a collaborator failure
(including misconfiguration) yields a user-safe static fallback message
instead of propagating.  The insights route instead answers a raw 500
`"Gemini API key not configured"` when the key is missing, and forwards a
thrown generation error to the error-handling middleware via
`next(error)` — no fallback insight is produced by the server. -/
theorem claim8_counterexample :
    routeInsights none (some []) (.ok "ok-text") =
      .serverError "Gemini API key not configured" ∧
    routeInsights (some "key") (some []) (.error "boom") =
      .handedToErrorMiddleware "boom" :=
  ⟨rfl, rfl⟩

/-- C8 (amended).  On a missing API key the insights route responds 500
with the configuration message; on a thrown generation error it forwards
the raw error to the error middleware; only a successful generation
yields an insight response.  (The user-safe static fallback strings exist
only on the client: the legacy direct Gemini service and the
InsightsModal `catch`.) -/
theorem claim8_amended (ts : List TaskOut) (gen : Except String String) :
    routeInsights none (some ts) gen =
      .serverError "Gemini API key not configured" ∧
    (∀ key e, routeInsights (some key) (some ts) (.error e) =
      .handedToErrorMiddleware e) ∧
    (∀ key s, routeInsights (some key) (some ts) (.ok s) = .okInsight s) :=
  ⟨rfl, fun _ _ => rfl, fun _ _ => rfl⟩

/-- C9.  A failed login is indistinguishable across its two causes: when
the email is unknown, or the email is found but the password comparison
fails, the handler returns the identical `401 "Invalid credentials"`
response. -/
theorem claim9 (users : List UserRec) (cmp : String → String → Bool)
    (email pw : String)
    (h : ∀ usr, getUserByEmail users email = some usr →
      cmp pw usr.password = false) :
    loginHandler users cmp email pw = .failure 401 "Invalid credentials" := by
  unfold loginHandler
  cases hu : getUserByEmail users email with
  | none => rfl
  | some usr => simp [h usr hu]

/-- C9 (witness): wrong password against an existing account produces the
same generic 401 as an unknown email. -/
theorem claim9_witness :
    getUserByEmail [{ id := "id1", email := "a@b.c", password := "hash",
                      created_at := 0, updated_at := 0 }] "a@b.c" =
      some { id := "id1", email := "a@b.c", password := "hash",
             created_at := 0, updated_at := 0 } ∧
    loginHandler [{ id := "id1", email := "a@b.c", password := "hash",
                    created_at := 0, updated_at := 0 }]
        (fun _ _ => false) "a@b.c" "wrong-pw" =
      .failure 401 "Invalid credentials" ∧
    loginHandler [{ id := "id1", email := "a@b.c", password := "hash",
                    created_at := 0, updated_at := 0 }]
        (fun _ _ => false) "other@b.c" "wrong-pw" =
      .failure 401 "Invalid credentials" :=
  ⟨rfl,
    claim9 [{ id := "id1", email := "a@b.c", password := "hash",
              created_at := 0, updated_at := 0 }]
      (fun _ _ => false) "a@b.c" "wrong-pw" (fun _ _ => rfl),
    claim9 [{ id := "id1", email := "a@b.c", password := "hash",
              created_at := 0, updated_at := 0 }]
      (fun _ _ => false) "other@b.c" "wrong-pw" (fun _ _ => rfl)⟩

/-- C10.  A syntactically invalid document id makes every store operation
fail closed without touching the store: `getTaskById` and `updateTask`
return `null`, `deleteTask` returns `false`, `getTasksByUserId` returns
`[]`, and the store is returned unchanged — for every store, so the
result never depends on stored data. -/
theorem claim10 (store : List TaskDoc) (i uid : String) (u : TaskUpdates)
    (now : Nat) (h : isValidObjectId i = false) :
    getTaskById store i uid = none ∧
    updateTask store i uid u now = (store, none) ∧
    deleteTask store i uid = (store, false) ∧
    getTasksByUserId store i = [] := by
  refine ⟨?_, ?_, ?_, ?_⟩ <;>
    simp [getTaskById, updateTask, deleteTask, getTasksByUserId, h]

/-- C10 (witness): the malformed id `"nope"` short-circuits all four
operations on a non-empty store. -/
theorem claim10_witness :
    isValidObjectId "nope" = false ∧
    (getTaskById
        [{ _id := "tttttttttttt"
           title := "t"
           description := ""
           status := "pending"
           extras := []
           userId := "uuuuuuuuuuuu"
           createdAt := 0
           updatedAt := 0 }] "nope" "uuuuuuuuuuuu" = none ∧
      updateTask
        [{ _id := "tttttttttttt"
           title := "t"
           description := ""
           status := "pending"
           extras := []
           userId := "uuuuuuuuuuuu"
           createdAt := 0
           updatedAt := 0 }] "nope" "uuuuuuuuuuuu" {} 9 =
        ([{ _id := "tttttttttttt"
            title := "t"
            description := ""
            status := "pending"
            extras := []
            userId := "uuuuuuuuuuuu"
            createdAt := 0
            updatedAt := 0 }], none) ∧
      deleteTask
        [{ _id := "tttttttttttt"
           title := "t"
           description := ""
           status := "pending"
           extras := []
           userId := "uuuuuuuuuuuu"
           createdAt := 0
           updatedAt := 0 }] "nope" "uuuuuuuuuuuu" =
        ([{ _id := "tttttttttttt"
            title := "t"
            description := ""
            status := "pending"
            extras := []
            userId := "uuuuuuuuuuuu"
            createdAt := 0
            updatedAt := 0 }], false) ∧
      getTasksByUserId
        [{ _id := "tttttttttttt"
           title := "t"
           description := ""
           status := "pending"
           extras := []
           userId := "uuuuuuuuuuuu"
           createdAt := 0
           updatedAt := 0 }] "nope" = []) :=
  ⟨rfl,
    claim10
      [{ _id := "tttttttttttt"
         title := "t"
         description := ""
         status := "pending"
         extras := []
         userId := "uuuuuuuuuuuu"
         createdAt := 0
         updatedAt := 0 }] "nope" "uuuuuuuuuuuu" {} 9 rfl⟩

end TaskManager
